import Mathlib

/-!
Shallow embedding of the address-book CRUD service in src/main.py.

The service is a FastAPI application over a single SQLite table
`addresses(id INTEGER PRIMARY KEY AUTOINCREMENT, name, street, city, state,
zip, lat, lon)`.  We model:

  * the pydantic `Address` model and its three field validators
    (`check_lat`, `check_lon`, `check_zip`), including the request-body
    parsing that pydantic performs before a handler runs (every declared
    field is required; field errors are collected per field);
  * the SQLite table as an explicit state `DB`: a list of rows in insertion
    order together with the AUTOINCREMENT counter (SQLite assigns the next
    counter value as the new rowid and never reuses ids);
  * the five HTTP handlers `get_addresses`, `get_address`, `create_address`,
    `update_address`, `delete_address`, plus route-level wrappers
    (`post_addresses`, `put_addresses`) that run body parsing first, as the
    framework does.

SQL floats are modelled as rationals and Python strings as Lean strings.
-/

namespace AddressBook

/-- Characters accepted by the Python `str.isnumeric` test used in
`check_zip`: a character counts as numeric when its Unicode `Numeric_Type`
property is `Decimal`, `Digit` or `Numeric`.  The model covers the ASCII
decimal digits U+0030 to U+0039 and, among the many further Unicode numeric
characters that Python accepts, the representatives used in this
development: the superscripts U+00B2, U+00B3, U+00B9 and the vulgar
fractions U+00BC to U+00BE (for example the one-half sign U+00BD). -/
def pyCharIsNumeric (c : Char) : Bool :=
  (0x30 ≤ c.toNat && c.toNat ≤ 0x39) ||
  c.toNat == 0xB2 || c.toNat == 0xB3 || c.toNat == 0xB9 ||
  (0xBC ≤ c.toNat && c.toNat ≤ 0xBE)

/-- Python `str.isnumeric`: true exactly when the string is nonempty and
every character is numeric. -/
def pyIsnumeric (s : String) : Bool :=
  !s.isEmpty && s.toList.all pyCharIsNumeric

/-- The decimal digits 0 to 9 as the spec words them ("every character is a
decimal digit").  Written from the spec, only for comparison with the
source predicate `pyCharIsNumeric`. -/
def specDecimalDigit (c : Char) : Bool :=
  0x30 ≤ c.toNat && c.toNat ≤ 0x39

/-- The validated pydantic `Address` model of src/main.py: all eight fields
are declared without defaults, so all are required, including `id`. -/
structure Address where
  id : Int
  name : String
  street : String
  city : String
  state : String
  zip : String
  lat : Rat
  lon : Rat
deriving Repr, DecidableEq

/-- Validator `check_lat`: raises `ValueError` when `v < -90 or v > 90`,
otherwise returns `v`. -/
def check_lat (v : Rat) : Except String Rat :=
  if v < -90 ∨ v > 90 then .error "latitude must be between -90 and 90"
  else .ok v

/-- Validator `check_lon`: raises `ValueError` when `v < -180 or v > 180`,
otherwise returns `v`. -/
def check_lon (v : Rat) : Except String Rat :=
  if v < -180 ∨ v > 180 then .error "longitude must be between -180 and 180"
  else .ok v

/-- Validator `check_zip`: raises `ValueError` when `not v.isnumeric()`,
otherwise returns `v`. -/
def check_zip (v : String) : Except String String :=
  if !pyIsnumeric v then .error "Invalid zipcode"
  else .ok v

/-- One entry of the pydantic validation-error list: the field it names and
the message. -/
structure FieldError where
  loc : String
  msg : String
deriving Repr, DecidableEq

/-- The pydantic message for a missing required field. -/
def requiredMsg : String := "field required"

/-- A raw JSON request body for the `Address` model: each declared field is
either present with a value of the right type or absent. -/
structure RawAddress where
  id : Option Int
  name : Option String
  street : Option String
  city : Option String
  state : Option String
  zip : Option String
  lat : Option Rat
  lon : Option Rat
deriving Repr, DecidableEq

/-- Errors contributed by a required field with no attached validator:
one `field required` error when absent, none otherwise. -/
def reqErr (loc : String) (o : Option α) : List FieldError :=
  match o with
  | none => [⟨loc, requiredMsg⟩]
  | some _ => []

/-- Errors contributed by a required field with an attached validator:
`field required` when absent, the validator message when it raises, none
otherwise. -/
def valErr (loc : String) (o : Option α) (chk : α → Except String α) :
    List FieldError :=
  match o with
  | none => [⟨loc, requiredMsg⟩]
  | some v =>
    match chk v with
    | .error m => [⟨loc, m⟩]
    | .ok _ => []

/-- The full pydantic error list for a request body: every declared field of
the `Address` model is required, and `zip`, `lat`, `lon` additionally run
their validators.  pydantic collects the errors of all fields. -/
def fieldErrors (b : RawAddress) : List FieldError :=
  reqErr "id" b.id ++ reqErr "name" b.name ++ reqErr "street" b.street ++
  reqErr "city" b.city ++ reqErr "state" b.state ++
  valErr "zip" b.zip check_zip ++ valErr "lat" b.lat check_lat ++
  valErr "lon" b.lon check_lon

/-- pydantic body parsing: when no field raises an error the validated
`Address` is built, otherwise the request fails with the collected error
list (the HTTP layer turns it into a 422 response). -/
def parseAddress (b : RawAddress) : Except (List FieldError) Address :=
  match fieldErrors b, b.id, b.name, b.street, b.city, b.state, b.zip,
      b.lat, b.lon with
  | [], some i, some n, some st, some c, some s, some z, some la, some lo =>
    .ok ⟨i, n, st, c, s, z, la, lo⟩
  | errs, _, _, _, _, _, _, _, _ => .error errs

/-- One persisted row of the `addresses` table. -/
structure Row where
  id : Int
  name : String
  street : String
  city : String
  state : String
  zip : String
  lat : Rat
  lon : Rat
deriving Repr, DecidableEq

/-- The SQLite database state: the rows of the `addresses` table in
insertion order, plus the AUTOINCREMENT counter (the id the next INSERT
will be assigned; with AUTOINCREMENT, SQLite never reuses an id). -/
structure DB where
  rows : List Row
  nextId : Int
deriving Repr, DecidableEq

/-- The `startup` handler on a fresh process: `CREATE TABLE IF NOT EXISTS`
yields an empty table whose first assigned rowid is 1. -/
def startup : DB := ⟨[], 1⟩

/-- `HTTPException(status_code, detail)` as raised by the handlers. -/
structure HTTPException where
  status_code : Nat
  detail : String
deriving Repr, DecidableEq

/-- `SELECT * FROM addresses WHERE id = ?` followed by `fetchone()`. -/
def selectById (db : DB) (i : Int) : Option Row :=
  db.rows.find? (fun r => r.id == i)

/-- `INSERT INTO addresses (name, street, city, state, zip, lat, lon)
VALUES (...)`: the new row receives the AUTOINCREMENT id, which is also the
`lastrowid` the cursor reports. -/
def insertRow (db : DB) (name street city state zip : String)
    (lat lon : Rat) : DB × Int :=
  (⟨db.rows ++ [⟨db.nextId, name, street, city, state, zip, lat, lon⟩],
    db.nextId + 1⟩, db.nextId)

/-- `UPDATE addresses SET ... WHERE id = ?`: overwrites every mutable field
of each matching row and reports the affected-row count. -/
def updateById (db : DB) (i : Int) (name street city state zip : String)
    (lat lon : Rat) : DB × Nat :=
  (⟨db.rows.map (fun r =>
      if r.id == i then ⟨r.id, name, street, city, state, zip, lat, lon⟩
      else r), db.nextId⟩,
   (db.rows.filter (fun r => r.id == i)).length)

/-- `DELETE FROM addresses WHERE id = ?`: removes every matching row and
reports the affected-row count. -/
def deleteById (db : DB) (i : Int) : DB × Nat :=
  (⟨db.rows.filter (fun r => !(r.id == i)), db.nextId⟩,
   (db.rows.filter (fun r => r.id == i)).length)

/-- Handler `GET /addresses`: returns every row. -/
def get_addresses (db : DB) : List Row :=
  db.rows

/-- Handler `GET /addresses/{address_id}`: 404 when `fetchone()` returns
no row, otherwise the full address object.  The SELECT does not change the
stored state, so the handler is a pure read. -/
def get_address (db : DB) (address_id : Int) : Except HTTPException Row :=
  match selectById db address_id with
  | none => .error ⟨404, "Address not found"⟩
  | some r => .ok r

/-- Handler `POST /addresses` after body validation: inserts the seven
mutable fields (the body id is not part of the INSERT) and responds with
`lastrowid`. -/
def create_address (db : DB) (address : Address) : DB × Int :=
  insertRow db address.name address.street address.city address.state
    address.zip address.lat address.lon

/-- Handler `PUT /addresses/{address_id}` after body validation: runs the
UPDATE, then 404 when `rowcount == 0`, otherwise the success message. -/
def update_address (db : DB) (address_id : Int) (address : Address) :
    DB × Except HTTPException String :=
  if (updateById db address_id address.name address.street address.city
      address.state address.zip address.lat address.lon).2 = 0 then
    ((updateById db address_id address.name address.street address.city
        address.state address.zip address.lat address.lon).1,
      .error ⟨404, "Address not found"⟩)
  else
    ((updateById db address_id address.name address.street address.city
        address.state address.zip address.lat address.lon).1,
      .ok "Address updated successfully")

/-- Handler `DELETE /addresses/{address_id}`: runs the DELETE and responds
with the success message regardless of the affected-row count. -/
def delete_address (db : DB) (address_id : Int) : DB × String :=
  ((deleteById db address_id).1, "Address deleted successfully")

/-- The full `POST /addresses` route: pydantic parses the body first; on
failure the handler never runs (422, storage untouched), on success the
handler inserts and responds `\x7bid: lastrowid\x7d`. -/
def post_addresses (db : DB) (body : RawAddress) :
    DB × Except (List FieldError) Int :=
  match parseAddress body with
  | .error errs => (db, .error errs)
  | .ok a =>
    let p := create_address db a
    (p.1, .ok p.2)

/-- Responses of the full PUT route. -/
inductive PutResult
  | unprocessable (errs : List FieldError)
  | notFound (detail : String)
  | success (message : String)
deriving Repr, DecidableEq

/-- The full `PUT /addresses/{address_id}` route: pydantic parses the body
first; on failure the handler never runs (422, storage untouched), on
success the handler updates and maps the outcome. -/
def put_addresses (db : DB) (address_id : Int) (body : RawAddress) :
    DB × PutResult :=
  match parseAddress body with
  | .error errs => (db, .unprocessable errs)
  | .ok a =>
    match update_address db address_id a with
    | (db', .error e) => (db', .notFound e.detail)
    | (db', .ok m) => (db', .success m)

/-- Well-formedness of a reachable database state: ids are positive and
below the AUTOINCREMENT counter, the counter is positive, and ids are
pairwise distinct (PRIMARY KEY). -/
def WF (db : DB) : Prop :=
  (∀ r ∈ db.rows, 0 < r.id ∧ r.id < db.nextId) ∧ 0 < db.nextId ∧
  (db.rows.map Row.id).Nodup

instance (db : DB) : Decidable (WF db) := by
  unfold WF; infer_instance

/-- A request body is rejected with a field-level validation error naming
`loc`: pydantic fails the parse and the returned error list carries an
entry for that field.  Both routes then answer 422 with that list before
any storage access (see the C9 theorem). -/
def rejectsNaming (b : RawAddress) (loc : String) : Prop :=
  ∃ errs, parseAddress b = .error errs ∧ ∃ e ∈ errs, e.loc = loc

/-- One client request against the service, as needed to speak about a
whole process history. -/
inductive Op
  | create (body : RawAddress)
  | put (address_id : Int) (body : RawAddress)
  | del (address_id : Int)
deriving Repr

/-- Apply one request to the state, recording the id returned by a
successful create. -/
def stepTrace (p : DB × List Int) (op : Op) : DB × List Int :=
  match op with
  | .create b =>
    match post_addresses p.1 b with
    | (db', .ok i) => (db', p.2 ++ [i])
    | (db', .error _) => (db', p.2)
  | .put i b => ((put_addresses p.1 i b).1, p.2)
  | .del i => ((delete_address p.1 i).1, p.2)

/-- Run a process history from startup, collecting every id a create
returned. -/
def runTrace (ops : List Op) : DB × List Int :=
  ops.foldl stepTrace (startup, [])

/-- Invariant of a process history: the AUTOINCREMENT counter is positive
and strictly above every id issued so far. -/
def TraceInv (p : DB × List Int) : Prop :=
  0 < p.1.nextId ∧ ∀ i ∈ p.2, 0 < i ∧ i < p.1.nextId

/-! ### Helper lemmas -/

/-- The SELECT by id comes back empty exactly when no row carries the id. -/
theorem selectById_eq_none (db : DB) (i : Int) :
    selectById db i = none ↔ ∀ r ∈ db.rows, r.id ≠ i := by
  simp [selectById, List.find?_eq_none]

/-- Mapping the per-row UPDATE over a list and then searching for the id
finds the rewritten first match. -/
theorem find?_map_update (l : List Row) (i : Int) (n st c s z : String)
    (la lo : Rat) :
    (l.map (fun r =>
      if r.id == i then (⟨r.id, n, st, c, s, z, la, lo⟩ : Row) else r)).find?
        (fun r => r.id == i) =
      (l.find? (fun r => r.id == i)).map
        (fun r => (⟨r.id, n, st, c, s, z, la, lo⟩ : Row)) := by
  induction l with
  | nil => rfl
  | cons r rs ih =>
    by_cases h : (r.id == i) = true
    · have h1 : (((⟨r.id, n, st, c, s, z, la, lo⟩ : Row)).id == i) = true := h
      rw [List.map_cons, if_pos h,
        @List.find?_cons_of_pos Row (fun r => r.id == i)
          ⟨r.id, n, st, c, s, z, la, lo⟩ _ h1,
        @List.find?_cons_of_pos Row (fun r => r.id == i) r rs h,
        Option.map_some']
    · rw [List.map_cons, if_neg h,
        @List.find?_cons_of_neg Row (fun r => r.id == i) r _ h,
        @List.find?_cons_of_neg Row (fun r => r.id == i) r rs h, ih]

/-- UPDATE on an id no row carries leaves the table untouched and reports
zero affected rows. -/
theorem updateById_no_match (db : DB) (i : Int) (n st c s z : String)
    (la lo : Rat) (h : ∀ r ∈ db.rows, r.id ≠ i) :
    updateById db i n st c s z la lo = (db, 0) := by
  unfold updateById
  have hfil : db.rows.filter (fun r => r.id == i) = [] := by
    rw [List.filter_eq_nil_iff]
    intro r hr
    simpa using h r hr
  have hmap : db.rows.map (fun r =>
      if r.id == i then (⟨r.id, n, st, c, s, z, la, lo⟩ : Row) else r) =
      db.rows := by
    calc db.rows.map (fun r =>
          if r.id == i then (⟨r.id, n, st, c, s, z, la, lo⟩ : Row) else r)
        = db.rows.map id := List.map_congr_left (by
          intro r hr
          have hne : ¬ r.id = i := h r hr
          simp [hne])
      _ = db.rows := List.map_id db.rows
  rw [hfil, hmap]
  rfl

/-- A row matching the id makes the affected-row count of UPDATE and DELETE
nonzero. -/
theorem filter_id_ne_nil (l : List Row) (r : Row) (i : Int)
    (hr : r ∈ l) (hi : r.id = i) :
    l.filter (fun r => r.id == i) ≠ [] := by
  intro hnil
  rw [List.filter_eq_nil_iff] at hnil
  exact hnil r hr (by simp [hi])

/-! ### C4: delete -/

/-- C4: for every integer id, DELETE returns the success message whether or
not a matching row exists, deleting twice succeeds both times, and after
the delete no row with that id remains. -/
theorem delete_unconditional_success (db : DB) (i : Int) :
    (delete_address db i).2 = "Address deleted successfully" ∧
    selectById (delete_address db i).1 i = none ∧
    (delete_address (delete_address db i).1 i).2 =
      "Address deleted successfully" := by
  refine ⟨rfl, ?_, rfl⟩
  rw [selectById_eq_none]
  intro r hr
  simp only [delete_address, deleteById, List.mem_filter] at hr
  simpa using hr.2

/-! ### C5: update -/

/-- C5: a validated PUT body on a missing id yields 404 with detail
`Address not found` and leaves the table unchanged; on an existing id it
yields the success message and overwrites every mutable field of the row. -/
theorem update_semantics (db : DB) (i : Int) (a : Address) :
    (selectById db i = none →
      update_address db i a = (db, .error ⟨404, "Address not found"⟩)) ∧
    (∀ r ∈ db.rows, r.id = i →
      (update_address db i a).2 = .ok "Address updated successfully" ∧
      selectById (update_address db i a).1 i =
        some ⟨i, a.name, a.street, a.city, a.state, a.zip, a.lat, a.lon⟩) := by
  constructor
  · intro hnone
    rw [selectById_eq_none] at hnone
    have hupd := updateById_no_match db i a.name a.street a.city a.state
      a.zip a.lat a.lon hnone
    unfold update_address
    rw [hupd]
    rfl
  · intro r hr hi
    have hfil := filter_id_ne_nil db.rows r i hr hi
    have hcount : ¬ (updateById db i a.name a.street a.city a.state a.zip
        a.lat a.lon).2 = 0 := by
      show ¬ (db.rows.filter (fun r => r.id == i)).length = 0
      simpa [List.length_eq_zero] using hfil
    have hsome : (db.rows.find? (fun r => r.id == i)).isSome = true := by
      rw [List.find?_isSome]
      exact ⟨r, hr, by simp [hi]⟩
    obtain ⟨r', hr'⟩ := Option.isSome_iff_exists.mp hsome
    have hrid' : r'.id = i := by
      have := List.find?_some hr'
      simpa using this
    unfold update_address
    rw [if_neg hcount]
    refine ⟨rfl, ?_⟩
    show (updateById db i a.name a.street a.city a.state a.zip a.lat
      a.lon).1.rows.find? (fun r => r.id == i) = _
    have hfind := find?_map_update db.rows i a.name a.street a.city a.state
      a.zip a.lat a.lon
    rw [show (updateById db i a.name a.street a.city a.state a.zip a.lat
        a.lon).1.rows = db.rows.map (fun r =>
          if r.id == i then
            (⟨r.id, a.name, a.street, a.city, a.state, a.zip, a.lat,
              a.lon⟩ : Row)
          else r) from rfl, hfind, hr', Option.map_some', hrid']

/-! ### C6: get by id -/

/-- C6: GET by id returns 404 with detail `Address not found` exactly when
no row carries the id, and returns the full unique matching row otherwise;
the handler is a pure read, so the stored state is unchanged by
construction. -/
theorem get_semantics (db : DB) (i : Int) (hwf : WF db) :
    (get_address db i = .error ⟨404, "Address not found"⟩ ↔
      ∀ r ∈ db.rows, r.id ≠ i) ∧
    (∀ r ∈ db.rows, r.id = i → get_address db i = .ok r) := by
  constructor
  · rw [← selectById_eq_none]
    unfold get_address
    cases h : selectById db i <;> simp
  · intro r hr hi
    have hsome : (db.rows.find? (fun r => r.id == i)).isSome = true := by
      rw [List.find?_isSome]
      exact ⟨r, hr, by simp [hi]⟩
    obtain ⟨r', hr'⟩ := Option.isSome_iff_exists.mp hsome
    have hr'mem : r' ∈ db.rows := List.mem_of_find?_eq_some hr'
    have hrid' : r'.id = i := by
      have := List.find?_some hr'
      simpa using this
    have : r' = r :=
      List.inj_on_of_nodup_map hwf.2.2 hr'mem hr (by rw [hrid', hi])
    simp [get_address, selectById, hr', this]

/-! ### C7: create then get round-trip -/

/-- C7: creating an address and immediately fetching by the returned id
yields exactly the submitted mutable fields with the assigned id
attached. -/
theorem create_then_get_roundtrip (db : DB) (a : Address) (hwf : WF db) :
    get_address (create_address db a).1 (create_address db a).2 =
      .ok ⟨(create_address db a).2, a.name, a.street, a.city, a.state,
        a.zip, a.lat, a.lon⟩ := by
  have hold : db.rows.find? (fun r => r.id == db.nextId) = none := by
    rw [List.find?_eq_none]
    intro r hr
    have := (hwf.1 r hr).2
    simp
    omega
  simp [get_address, create_address, insertRow, selectById,
    List.find?_append, hold]

/-! ### Validation-layer helper lemmas -/

/-- The errors of a plain required field carry that field name, and exist
exactly when the field is absent. -/
theorem exists_loc_reqErr (loc loc' : String) (o : Option α) :
    (∃ e ∈ reqErr loc o, e.loc = loc') ↔ loc = loc' ∧ o = none := by
  cases o <;> simp [reqErr]

/-- The errors of a validated field carry that field name, and exist
exactly when the field is absent or its validator raises. -/
theorem exists_loc_valErr (loc loc' : String) (o : Option α)
    (chk : α → Except String α) :
    (∃ e ∈ valErr loc o chk, e.loc = loc') ↔
      loc = loc' ∧ (o = none ∨ ∃ v, o = some v ∧ ∃ m, chk v = .error m) := by
  cases o with
  | none => simp [valErr]
  | some v => cases h : chk v <;> simp [valErr, h]

/-- `check_lat` raises exactly outside the closed interval from -90 to
90. -/
theorem check_lat_error_iff (v : Rat) :
    (∃ m, check_lat v = .error m) ↔ v < -90 ∨ 90 < v := by
  unfold check_lat
  by_cases h : v < -90 ∨ v > 90 <;> simp [h]

/-- `check_lon` raises exactly outside the closed interval from -180 to
180. -/
theorem check_lon_error_iff (v : Rat) :
    (∃ m, check_lon v = .error m) ↔ v < -180 ∨ 180 < v := by
  unfold check_lon
  by_cases h : v < -180 ∨ v > 180 <;> simp [h]

/-- `check_zip` raises exactly when the Python numeric-string test
fails. -/
theorem check_zip_error_iff (z : String) :
    (∃ m, check_zip z = .error m) ↔ pyIsnumeric z = false := by
  unfold check_zip
  cases h : pyIsnumeric z <;> simp [h]

/-- The Python numeric-string test fails exactly on the empty string and
on strings with a non-numeric character. -/
theorem pyIsnumeric_eq_false_iff (s : String) :
    pyIsnumeric s = false ↔
      s = "" ∨ ∃ c ∈ s.toList, pyCharIsNumeric c = false := by
  by_cases hs : s = ""
  · subst hs
    exact iff_of_true (by decide) (Or.inl rfl)
  · simp only [pyIsnumeric, Bool.and_eq_false_iff, Bool.not_eq_false',
      String.isEmpty_iff, hs, false_or, List.all_eq_false]
    simp [Bool.not_eq_true]

/-- Every ASCII decimal digit passes the Python per-character numeric
test. -/
theorem pyCharIsNumeric_of_digit (c : Char)
    (h : specDecimalDigit c = true) : pyCharIsNumeric c = true := by
  simp only [specDecimalDigit, Bool.and_eq_true, decide_eq_true_eq] at h
  simp only [pyCharIsNumeric, Bool.or_eq_true, Bool.and_eq_true,
    decide_eq_true_eq]
  exact Or.inl (Or.inl (Or.inl (Or.inl h)))

/-- A nonempty all-ASCII-digit string passes the Python numeric-string
test. -/
theorem pyIsnumeric_of_digits (z : String) (hne : z ≠ "")
    (hd : ∀ c ∈ z.toList, specDecimalDigit c = true) :
    pyIsnumeric z = true := by
  simp only [pyIsnumeric, Bool.and_eq_true, Bool.not_eq_true',
    List.all_eq_true]
  refine ⟨?_, fun c hc => pyCharIsNumeric_of_digit c (hd c hc)⟩
  rw [← Bool.not_eq_true, String.isEmpty_iff]
  exact hne

/-- The collected pydantic errors name `lat` exactly when the submitted
latitude is out of range. -/
theorem fieldErrors_names_lat (b : RawAddress) (v : Rat)
    (hv : b.lat = some v) :
    (∃ e ∈ fieldErrors b, e.loc = "lat") ↔ v < -90 ∨ 90 < v := by
  simp [fieldErrors, List.mem_append, or_and_right, exists_or,
    exists_loc_reqErr, exists_loc_valErr, hv, check_lat_error_iff]

/-- The collected pydantic errors name `lon` exactly when the submitted
longitude is out of range. -/
theorem fieldErrors_names_lon (b : RawAddress) (w : Rat)
    (hw : b.lon = some w) :
    (∃ e ∈ fieldErrors b, e.loc = "lon") ↔ w < -180 ∨ 180 < w := by
  simp [fieldErrors, List.mem_append, or_and_right, exists_or,
    exists_loc_reqErr, exists_loc_valErr, hw, check_lon_error_iff]

/-- The collected pydantic errors name `zip` exactly when the submitted
zip fails the Python numeric-string test. -/
theorem fieldErrors_names_zip (b : RawAddress) (z : String)
    (hz : b.zip = some z) :
    (∃ e ∈ fieldErrors b, e.loc = "zip") ↔ pyIsnumeric z = false := by
  simp [fieldErrors, List.mem_append, or_and_right, exists_or,
    exists_loc_reqErr, exists_loc_valErr, hz, check_zip_error_iff]

/-- A body with a field error fails the parse with exactly the collected
error list. -/
theorem parseAddress_error (b : RawAddress) (h : fieldErrors b ≠ []) :
    parseAddress b = .error (fieldErrors b) := by
  unfold parseAddress
  split
  · rename_i heq _ _ _ _ _ _ _ _
    exact absurd heq h
  · rfl

/-- A failing parse reports exactly the collected error list. -/
theorem parseAddress_error_eq (b : RawAddress) (errs : List FieldError)
    (h : parseAddress b = .error errs) : errs = fieldErrors b := by
  unfold parseAddress at h
  split at h
  · exact absurd h (by simp)
  · exact (Except.error.inj h).symm

/-- A body with every field present and no field error parses to the
corresponding validated `Address`. -/
theorem parseAddress_ok_of (b : RawAddress) (i : Int) (n st c s z : String)
    (la lo : Rat)
    (hid : b.id = some i) (hn : b.name = some n) (hst : b.street = some st)
    (hc : b.city = some c) (hs : b.state = some s) (hz : b.zip = some z)
    (hla : b.lat = some la) (hlo : b.lon = some lo)
    (hfe : fieldErrors b = []) :
    parseAddress b = .ok ⟨i, n, st, c, s, z, la, lo⟩ := by
  obtain ⟨bid, bn, bst, bc, bs, bz, bla, blo⟩ := b
  simp only at hid hn hst hc hs hz hla hlo
  subst hid hn hst hc hs hz hla hlo
  unfold parseAddress
  rw [hfe]

/-- Rejection naming a field is the same as the collected error list
naming it. -/
theorem rejectsNaming_iff (b : RawAddress) (loc : String) :
    rejectsNaming b loc ↔ ∃ e ∈ fieldErrors b, e.loc = loc := by
  constructor
  · rintro ⟨errs, herrs, e, he, hloc⟩
    rw [parseAddress_error_eq b errs herrs] at he
    exact ⟨e, he, hloc⟩
  · rintro ⟨e, he, hloc⟩
    have hne : fieldErrors b ≠ [] := by
      intro h0
      rw [h0] at he
      exact absurd he (List.not_mem_nil e)
    exact ⟨fieldErrors b, parseAddress_error b hne, e, he, hloc⟩

/-- A present plain required field contributes no error. -/
theorem isSome_of_reqErr_nil (loc : String) (o : Option α)
    (h : reqErr loc o = []) : o.isSome := by
  cases o with
  | none => simp [reqErr] at h
  | some v => rfl

/-- A validated field with an empty error contribution is present. -/
theorem isSome_of_valErr_nil (loc : String) (o : Option α)
    (chk : α → Except String α) (h : valErr loc o chk = []) : o.isSome := by
  cases o with
  | none => simp [valErr] at h
  | some v => rfl

/-- An empty collected error list means every field of the body is
present. -/
theorem fields_some_of_fieldErrors_nil (b : RawAddress)
    (h : fieldErrors b = []) :
    b.id.isSome ∧ b.name.isSome ∧ b.street.isSome ∧ b.city.isSome ∧
    b.state.isSome ∧ b.zip.isSome ∧ b.lat.isSome ∧ b.lon.isSome := by
  unfold fieldErrors at h
  simp only [List.append_eq_nil] at h
  obtain ⟨⟨⟨⟨⟨⟨⟨h1, h2⟩, h3⟩, h4⟩, h5⟩, h6⟩, h7⟩, h8⟩ := h
  exact ⟨isSome_of_reqErr_nil _ _ h1, isSome_of_reqErr_nil _ _ h2,
    isSome_of_reqErr_nil _ _ h3, isSome_of_reqErr_nil _ _ h4,
    isSome_of_reqErr_nil _ _ h5, isSome_of_valErr_nil _ _ _ h6,
    isSome_of_valErr_nil _ _ _ h7, isSome_of_valErr_nil _ _ _ h8⟩

/-- A body whose fields are all present and all pass their validators
collects no error. -/
theorem fieldErrors_nil_of (b : RawAddress)
    (hid : b.id.isSome) (hn : b.name.isSome) (hst : b.street.isSome)
    (hc : b.city.isSome) (hs : b.state.isSome)
    (hz : ∃ z, b.zip = some z ∧ pyIsnumeric z = true)
    (hla : ∃ v, b.lat = some v ∧ -90 ≤ v ∧ v ≤ 90)
    (hlo : ∃ w, b.lon = some w ∧ -180 ≤ w ∧ w ≤ 180) :
    fieldErrors b = [] := by
  obtain ⟨z, hz1, hz2⟩ := hz
  obtain ⟨v, hv1, hv2, hv3⟩ := hla
  obtain ⟨w, hw1, hw2, hw3⟩ := hlo
  obtain ⟨i, hi⟩ := Option.isSome_iff_exists.mp hid
  obtain ⟨n, hn'⟩ := Option.isSome_iff_exists.mp hn
  obtain ⟨st, hst'⟩ := Option.isSome_iff_exists.mp hst
  obtain ⟨c, hc'⟩ := Option.isSome_iff_exists.mp hc
  obtain ⟨s, hs'⟩ := Option.isSome_iff_exists.mp hs
  have hlat : ¬ (v < -90 ∨ v > 90) := by
    push_neg
    exact ⟨by linarith, by linarith⟩
  have hlon : ¬ (w < -180 ∨ w > 180) := by
    push_neg
    exact ⟨by linarith, by linarith⟩
  unfold fieldErrors
  rw [hi, hn', hst', hc', hs', hz1, hv1, hw1]
  simp [reqErr, valErr, check_zip, check_lat, check_lon, hz2, hlat, hlon]

/-! ### C1: the id field on create -/

/-- C1 counterexample: a create body carrying exactly the seven fields
name, street, city, state, zip, lat, lon and no `id` is not accepted: the
pydantic model declares `id` required, so the request fails with a
`field required` error naming `id` and the table is untouched. -/
theorem create_omitted_id_rejected :
    post_addresses ⟨[], 1⟩ ⟨none, some "A", some "1 Main", some "X",
        some "Y", some "12345", some 10, some 20⟩ =
      (⟨[], 1⟩, .error [⟨"id", requiredMsg⟩]) := rfl

/-- C1 amended: a create body must include `id` (the model requires it);
a body without it is rejected with a 422 error naming `id`, while a parsed
body is accepted and the service responds with the storage-assigned id,
not the supplied one. -/
theorem create_body_id_required (db : DB) (b : RawAddress) :
    (b.id = none →
      post_addresses db b = (db, .error (fieldErrors b)) ∧
      (⟨"id", requiredMsg⟩ : FieldError) ∈ fieldErrors b) ∧
    (∀ a, parseAddress b = .ok a →
      (post_addresses db b).2 = .ok db.nextId) := by
  constructor
  · intro hidnone
    have hmem : (⟨"id", requiredMsg⟩ : FieldError) ∈ fieldErrors b := by
      unfold fieldErrors
      rw [hidnone]
      exact List.mem_append_left _ (List.mem_cons_self _ _)
    have hne : fieldErrors b ≠ [] := List.ne_nil_of_mem hmem
    refine ⟨?_, hmem⟩
    unfold post_addresses
    rw [parseAddress_error b hne]
  · intro a ha
    unfold post_addresses
    rw [ha]
    rfl

/-- C1 witness: the rejection branch of the amended claim at a concrete
body with no `id`. -/
theorem create_body_id_required_witness :
    post_addresses ⟨[], 1⟩ ⟨none, some "B", some "2 Main", some "X",
        some "Y", some "99", some 0, some 0⟩ =
      (⟨[], 1⟩, .error (fieldErrors ⟨none, some "B", some "2 Main",
        some "X", some "Y", some "99", some 0, some 0⟩)) ∧
    (⟨"id", requiredMsg⟩ : FieldError) ∈ fieldErrors ⟨none, some "B",
      some "2 Main", some "X", some "Y", some "99", some 0, some 0⟩ :=
  (create_body_id_required ⟨[], 1⟩ _).1 rfl

/-! ### C2: the zip validator -/

/-- C2 counterexample: the one-half sign passes the Python numeric-string
test, so a zip consisting of it is accepted by `check_zip` even though it
contains no decimal digit; acceptance is therefore not equivalent to
"every character is a decimal digit 0-9". -/
theorem zip_nondigit_accepted :
    check_zip "½" = .ok "½" ∧
    ∃ c ∈ ("½" : String).toList, specDecimalDigit c = false :=
  ⟨rfl, by decide⟩

/-- C2 amended: the zip field is rejected with a validation error naming
`zip` exactly when it is empty or some character fails the Python
per-character numeric test (a strictly wider set than the decimal digits);
every nonempty string of ASCII decimal digits is accepted and the empty
string is rejected. -/
theorem zip_isnumeric_validation (b : RawAddress) (z : String)
    (hz : b.zip = some z) :
    (rejectsNaming b "zip" ↔
      z = "" ∨ ∃ c ∈ z.toList, pyCharIsNumeric c = false) ∧
    (z ≠ "" → (∀ c ∈ z.toList, specDecimalDigit c = true) →
      ¬ rejectsNaming b "zip") ∧
    check_zip "" = .error "Invalid zipcode" := by
  refine ⟨?_, ?_, rfl⟩
  · rw [rejectsNaming_iff, fieldErrors_names_zip b z hz,
      pyIsnumeric_eq_false_iff]
  · intro hne hd
    rw [rejectsNaming_iff, fieldErrors_names_zip b z hz]
    simp [pyIsnumeric_of_digits z hne hd]

/-- C2 witness: a body whose zip is the all-digit string 12345 is not
rejected for `zip`. -/
theorem zip_isnumeric_validation_witness :
    ¬ rejectsNaming ⟨some 1, some "A", some "B", some "C", some "D",
      some "12345", some 10, some 20⟩ "zip" :=
  (zip_isnumeric_validation ⟨some 1, some "A", some "B", some "C",
    some "D", some "12345", some 10, some 20⟩ "12345" rfl).2.1
    (by decide) (by decide)

/-! ### C3: lat and lon range validation -/

/-- C3: a create or update body is rejected with an error naming `lat`
exactly when the submitted latitude lies outside the closed interval from
-90 to 90, and with an error naming `lon` exactly when the submitted
longitude lies outside the closed interval from -180 to 180; in
particular the boundary values are accepted. -/
theorem lat_lon_range_validation (b : RawAddress) (v w : Rat)
    (hv : b.lat = some v) (hw : b.lon = some w) :
    (rejectsNaming b "lat" ↔ v < -90 ∨ 90 < v) ∧
    (rejectsNaming b "lon" ↔ w < -180 ∨ 180 < w) := by
  rw [rejectsNaming_iff, rejectsNaming_iff]
  exact ⟨fieldErrors_names_lat b v hv, fieldErrors_names_lon b w hw⟩

/-- C3 witness: the boundary values 90 and -180 are accepted. -/
theorem lat_lon_range_validation_witness :
    ¬ rejectsNaming ⟨some 1, some "A", some "B", some "C", some "D",
      some "12345", some 90, some (-180)⟩ "lat" ∧
    ¬ rejectsNaming ⟨some 1, some "A", some "B", some "C", some "D",
      some "12345", some 90, some (-180)⟩ "lon" := by
  have h := lat_lon_range_validation ⟨some 1, some "A", some "B", some "C",
    some "D", some "12345", some 90, some (-180)⟩ 90 (-180) rfl rfl
  constructor
  · rw [h.1]
    norm_num
  · rw [h.2]
    norm_num

/-! ### C9: validation failures leave storage untouched -/

/-- C9: a create or update body that fails field validation is answered
with the 422 error list naming the offending fields, the handler never
runs, and the stored table is exactly what it was before the request. -/
theorem validation_rejects_before_storage (db : DB) (i : Int)
    (b : RawAddress) (h : fieldErrors b ≠ []) :
    post_addresses db b = (db, .error (fieldErrors b)) ∧
    put_addresses db i b = (db, .unprocessable (fieldErrors b)) := by
  have hpe := parseAddress_error b h
  constructor
  · unfold post_addresses
    rw [hpe]
  · unfold put_addresses
    rw [hpe]

/-- C9 witness: a body with latitude 91 is rejected by both routes and
the state passes through unchanged. -/
theorem validation_rejects_before_storage_witness :
    post_addresses ⟨[], 1⟩ ⟨some 1, some "A", some "B", some "C", some "D",
        some "12345", some 91, some 0⟩ =
      (⟨[], 1⟩, .error (fieldErrors ⟨some 1, some "A", some "B", some "C",
        some "D", some "12345", some 91, some 0⟩)) ∧
    put_addresses ⟨[], 1⟩ 3 ⟨some 1, some "A", some "B", some "C", some "D",
        some "12345", some 91, some 0⟩ =
      (⟨[], 1⟩, .unprocessable (fieldErrors ⟨some 1, some "A", some "B",
        some "C", some "D", some "12345", some 91, some 0⟩)) :=
  validation_rejects_before_storage ⟨[], 1⟩ 3 _ (by decide)

/-! ### C10: the body id is ignored on create -/

/-- C10: two create requests against the same stored state that differ
only in the value of the body `id` field produce identical results: same
inserted row, same assigned id, same response; the new id comes from the
storage counter alone. -/
theorem create_ignores_body_id (db : DB) (b1 b2 : RawAddress)
    (i1 i2 : Int) (h1 : b1.id = some i1) (h2 : b2.id = some i2)
    (hn : b1.name = b2.name) (hst : b1.street = b2.street)
    (hc : b1.city = b2.city) (hs : b1.state = b2.state)
    (hz : b1.zip = b2.zip) (hla : b1.lat = b2.lat)
    (hlo : b1.lon = b2.lon) :
    post_addresses db b1 = post_addresses db b2 := by
  have hfe : fieldErrors b1 = fieldErrors b2 := by
    unfold fieldErrors
    rw [hn, hst, hc, hs, hz, hla, hlo, h1, h2]
    rfl
  by_cases h0 : fieldErrors b1 = []
  · have h0' : fieldErrors b2 = [] := by rw [← hfe]; exact h0
    obtain ⟨-, hn1, hst1, hc1, hs1, hz1, hla1, hlo1⟩ :=
      fields_some_of_fieldErrors_nil b1 h0
    obtain ⟨n, hnv⟩ := Option.isSome_iff_exists.mp hn1
    obtain ⟨st, hstv⟩ := Option.isSome_iff_exists.mp hst1
    obtain ⟨c, hcv⟩ := Option.isSome_iff_exists.mp hc1
    obtain ⟨s, hsv⟩ := Option.isSome_iff_exists.mp hs1
    obtain ⟨z, hzv⟩ := Option.isSome_iff_exists.mp hz1
    obtain ⟨la, hlav⟩ := Option.isSome_iff_exists.mp hla1
    obtain ⟨lo, hlov⟩ := Option.isSome_iff_exists.mp hlo1
    have hp1 := parseAddress_ok_of b1 i1 n st c s z la lo h1 hnv hstv hcv
      hsv hzv hlav hlov h0
    have hp2 := parseAddress_ok_of b2 i2 n st c s z la lo h2
      (hn.symm.trans hnv) (hst.symm.trans hstv) (hc.symm.trans hcv)
      (hs.symm.trans hsv) (hz.symm.trans hzv) (hla.symm.trans hlav)
      (hlo.symm.trans hlov) h0'
    unfold post_addresses
    rw [hp1, hp2]
    rfl
  · have h0' : fieldErrors b2 ≠ [] := by rw [← hfe]; exact h0
    unfold post_addresses
    rw [parseAddress_error b1 h0, parseAddress_error b2 h0', hfe]

/-- C5 witness: a valid update on an empty table answers 404 and leaves
the table empty; on a table holding the row it answers success. -/
theorem update_semantics_witness :
    update_address ⟨[], 1⟩ 7 ⟨5, "A", "B", "C", "D", "12345", 10, 20⟩ =
      (⟨[], 1⟩, .error ⟨404, "Address not found"⟩) ∧
    (update_address ⟨[⟨1, "A", "B", "C", "D", "12345", 10, 20⟩], 2⟩ 1
        ⟨5, "N", "S", "T", "U", "99", 1, 2⟩).2 =
      .ok "Address updated successfully" := by
  constructor
  · exact (update_semantics ⟨[], 1⟩ 7
      ⟨5, "A", "B", "C", "D", "12345", 10, 20⟩).1 rfl
  · exact ((update_semantics ⟨[⟨1, "A", "B", "C", "D", "12345", 10, 20⟩],
      2⟩ 1 ⟨5, "N", "S", "T", "U", "99", 1, 2⟩).2
      ⟨1, "A", "B", "C", "D", "12345", 10, 20⟩
      (List.mem_cons_self _ _) rfl).1

/-- C6 witness: fetching the stored row with id 1 returns it; fetching
id 2 answers 404. -/
theorem get_semantics_witness :
    get_address ⟨[⟨1, "A", "B", "C", "D", "12345", 10, 20⟩], 2⟩ 1 =
      .ok ⟨1, "A", "B", "C", "D", "12345", 10, 20⟩ ∧
    get_address ⟨[⟨1, "A", "B", "C", "D", "12345", 10, 20⟩], 2⟩ 2 =
      .error ⟨404, "Address not found"⟩ := by
  constructor
  · exact (get_semantics ⟨[⟨1, "A", "B", "C", "D", "12345", 10, 20⟩], 2⟩ 1
      (by decide)).2 ⟨1, "A", "B", "C", "D", "12345", 10, 20⟩
      (List.mem_cons_self _ _) rfl
  · exact (get_semantics ⟨[⟨1, "A", "B", "C", "D", "12345", 10, 20⟩], 2⟩ 2
      (by decide)).1.mpr (by decide)

/-- C7 witness: the round trip at a concrete create over the fresh
table. -/
theorem create_then_get_roundtrip_witness :
    get_address (create_address ⟨[], 1⟩
        ⟨9, "A", "B", "C", "D", "12345", 10, 20⟩).1
      (create_address ⟨[], 1⟩ ⟨9, "A", "B", "C", "D", "12345", 10, 20⟩).2 =
      .ok ⟨(create_address ⟨[], 1⟩
        ⟨9, "A", "B", "C", "D", "12345", 10, 20⟩).2,
        "A", "B", "C", "D", "12345", 10, 20⟩ :=
  create_then_get_roundtrip ⟨[], 1⟩ ⟨9, "A", "B", "C", "D", "12345", 10, 20⟩
    (by decide)

/-- C10 witness: two concrete creates differing only in the body id give
the identical response and state. -/
theorem create_ignores_body_id_witness :
    post_addresses ⟨[], 1⟩ ⟨some 1, some "A", some "B", some "C", some "D",
      some "12345", some 10, some 20⟩ =
    post_addresses ⟨[], 1⟩ ⟨some 999, some "A", some "B", some "C",
      some "D", some "12345", some 10, some 20⟩ :=
  create_ignores_body_id ⟨[], 1⟩ _ _ 1 999 rfl rfl rfl rfl rfl rfl rfl
    rfl rfl

/-! ### C8: fresh positive ids along a process history -/

/-- A rejected create leaves the state untouched. -/
theorem post_addresses_error_fst (db : DB) (b : RawAddress)
    (e : List FieldError) (h : (post_addresses db b).2 = .error e) :
    (post_addresses db b).1 = db := by
  unfold post_addresses at h ⊢
  cases hp : parseAddress b
  · rfl
  · rw [hp] at h
    exact absurd h (by simp)

/-- A successful create returns the current AUTOINCREMENT counter and
bumps it by one. -/
theorem post_addresses_ok_shape (db : DB) (b : RawAddress) (i : Int)
    (h : (post_addresses db b).2 = .ok i) :
    i = db.nextId ∧ (post_addresses db b).1.nextId = db.nextId + 1 := by
  unfold post_addresses at h ⊢
  cases hp : parseAddress b
  · rw [hp] at h
    exact absurd h (by simp)
  · rename_i a
    rw [hp] at h
    have h' : Except.ok (ε := List FieldError) (create_address db a).2 =
        Except.ok i := h
    exact ⟨(Except.ok.inj h').symm, rfl⟩

/-- The update handler never touches the AUTOINCREMENT counter. -/
theorem update_address_fst_nextId (db : DB) (i : Int) (a : Address) :
    (update_address db i a).1.nextId = db.nextId := by
  unfold update_address
  split <;> rfl

/-- The PUT route never touches the AUTOINCREMENT counter. -/
theorem put_addresses_nextId (db : DB) (i : Int) (b : RawAddress) :
    (put_addresses db i b).1.nextId = db.nextId := by
  unfold put_addresses
  cases hp : parseAddress b with
  | error e => rfl
  | ok a =>
    show (match update_address db i a with
      | (db', .error e) => (db', PutResult.notFound e.detail)
      | (db', .ok m) => (db', PutResult.success m)).1.nextId = db.nextId
    cases hu : update_address db i a with
    | mk db' res =>
      have hd : db'.nextId = db.nextId := by
        have hfst : db' = (update_address db i a).1 := by rw [hu]
        rw [hfst, update_address_fst_nextId]
      cases res <;> exact hd

/-- The DELETE route never touches the AUTOINCREMENT counter. -/
theorem delete_address_nextId (db : DB) (i : Int) :
    (delete_address db i).1.nextId = db.nextId := rfl

/-- One step of a process history preserves the id invariant. -/
theorem stepTrace_inv (p : DB × List Int) (op : Op) (h : TraceInv p) :
    TraceInv (stepTrace p op) := by
  obtain ⟨db, ids⟩ := p
  obtain ⟨h1, h2⟩ := h
  replace h1 : 0 < db.nextId := h1
  replace h2 : ∀ j ∈ ids, 0 < j ∧ j < db.nextId := h2
  cases op with
  | create b =>
    show TraceInv (match post_addresses db b with
      | (db', .ok i) => (db', ids ++ [i])
      | (db', .error _) => (db', ids))
    cases hp : post_addresses db b with
    | mk db' res =>
      cases res with
      | error e =>
        have hdb : db' = db := by
          have hsnd : (post_addresses db b).2 = .error e := by rw [hp]
          have hfst := post_addresses_error_fst db b e hsnd
          rw [hp] at hfst
          exact hfst
        subst hdb
        exact ⟨h1, h2⟩
      | ok i =>
        have hsnd : (post_addresses db b).2 = .ok i := by rw [hp]
        obtain ⟨hi, hnext⟩ := post_addresses_ok_shape db b i hsnd
        have hnext' : db'.nextId = db.nextId + 1 := by
          rw [← hnext, hp]
        refine ⟨?_, ?_⟩
        · show 0 < db'.nextId
          rw [hnext']
          omega
        · intro j hj
          show 0 < j ∧ j < db'.nextId
          rw [hnext']
          rw [List.mem_append] at hj
          rcases hj with hj | hj
          · obtain ⟨ha, hb⟩ := h2 j hj
            exact ⟨ha, by omega⟩
          · have hji : j = i := by simpa using hj
            subst hji
            rw [hi]
            exact ⟨h1, by omega⟩
  | put i b =>
    show TraceInv ((put_addresses db i b).1, ids)
    refine ⟨?_, ?_⟩
    · show 0 < (put_addresses db i b).1.nextId
      rw [put_addresses_nextId]
      exact h1
    · intro j hj
      show 0 < j ∧ j < (put_addresses db i b).1.nextId
      rw [put_addresses_nextId]
      exact h2 j hj
  | del i =>
    show TraceInv ((delete_address db i).1, ids)
    refine ⟨?_, ?_⟩
    · show 0 < (delete_address db i).1.nextId
      rw [delete_address_nextId]
      exact h1
    · intro j hj
      show 0 < j ∧ j < (delete_address db i).1.nextId
      rw [delete_address_nextId]
      exact h2 j hj

/-- The id invariant holds after every process history from startup. -/
theorem runTrace_inv (ops : List Op) : TraceInv (runTrace ops) := by
  unfold runTrace
  suffices h : ∀ p, TraceInv p → TraceInv (ops.foldl stepTrace p) from
    h (startup, []) ⟨by decide, by simp⟩
  induction ops with
  | nil => exact fun p hp => hp
  | cons op ops ih =>
    exact fun p hp => ih (stepTrace p op) (stepTrace_inv p op hp)

/-- C8: after any process history, a create whose body is complete and
whose lat, lon and zip pass their validation rules succeeds, and the
returned id is a positive integer that no earlier create in the history
returned. -/
theorem create_fresh_positive_id (ops : List Op) (b : RawAddress)
    (hid : b.id.isSome) (hn : b.name.isSome) (hst : b.street.isSome)
    (hc : b.city.isSome) (hs : b.state.isSome)
    (hz : ∃ z, b.zip = some z ∧ z ≠ "" ∧
      ∀ c ∈ z.toList, specDecimalDigit c = true)
    (hla : ∃ v, b.lat = some v ∧ -90 ≤ v ∧ v ≤ 90)
    (hlo : ∃ w, b.lon = some w ∧ -180 ≤ w ∧ w ≤ 180) :
    ∃ i, (post_addresses (runTrace ops).1 b).2 = .ok i ∧ 0 < i ∧
      i ∉ (runTrace ops).2 := by
  obtain ⟨hinv1, hinv2⟩ := runTrace_inv ops
  obtain ⟨z, hz1, hz2, hz3⟩ := hz
  have hfe : fieldErrors b = [] := fieldErrors_nil_of b hid hn hst hc hs
    ⟨z, hz1, pyIsnumeric_of_digits z hz2 hz3⟩ hla hlo
  obtain ⟨i0, hi0⟩ := Option.isSome_iff_exists.mp hid
  obtain ⟨n, hnv⟩ := Option.isSome_iff_exists.mp hn
  obtain ⟨st, hstv⟩ := Option.isSome_iff_exists.mp hst
  obtain ⟨c, hcv⟩ := Option.isSome_iff_exists.mp hc
  obtain ⟨s, hsv⟩ := Option.isSome_iff_exists.mp hs
  obtain ⟨la, hlav, -, -⟩ := hla
  obtain ⟨lo, hlov, -, -⟩ := hlo
  have hok := parseAddress_ok_of b i0 n st c s z la lo hi0 hnv hstv hcv
    hsv hz1 hlav hlov hfe
  refine ⟨(runTrace ops).1.nextId, ?_, hinv1, ?_⟩
  · unfold post_addresses
    rw [hok]
    rfl
  · intro hmem
    exact absurd (hinv2 _ hmem).2 (lt_irrefl _)

/-- C8 witness: the very first create on a fresh process returns a fresh
positive id. -/
theorem create_fresh_positive_id_witness :
    ∃ i, (post_addresses (runTrace []).1 ⟨some 7, some "A", some "B",
        some "C", some "D", some "12345", some 10, some 20⟩).2 = .ok i ∧
      0 < i ∧ i ∉ (runTrace []).2 :=
  create_fresh_positive_id [] ⟨some 7, some "A", some "B", some "C",
    some "D", some "12345", some 10, some 20⟩ rfl rfl rfl rfl rfl
    ⟨"12345", rfl, by decide, by decide⟩
    ⟨10, rfl, by norm_num, by norm_num⟩
    ⟨20, rfl, by norm_num, by norm_num⟩

end AddressBook
